import Mathlib

/-!
Shallow embedding of `notion_docs_sync/markdown.py` (the `NotionRenderer`
class and its helpers).  Python dynamic values returned by the renderer
(strings, block-descriptor dicts, lists of either) are modelled by the
`Rendered` inductive; block-descriptor dicts are modelled by `Block`, one
constructor per notion-py block class appearing as a `'type'` value, with
the dict's remaining keys as fields.  Fatal Python exceptions (a `KeyError`
from the dispatch table on an unknown AST class, a `TypeError` from
subscripting a non-dict) are modelled by `none`; messages sent to the
module logger are accumulated in a list of strings, in emission order.
-/

/-- Markdown AST tokens as produced by mistletoe, one constructor per node
class the dispatch table of `NotionRenderer` handles, carrying the
attributes the renderer reads (`children`, `level`, `language`, `leader`,
`header`, `target`, `src`, `title`, `content`).  `Unknown` stands for any
AST class that has no entry in `render_map`. -/
inductive Token where
  | Document (children : List Token)
  | Heading (level : Nat) (children : List Token)
  | Paragraph (children : List Token)
  | Quote (children : List Token)
  | ThematicBreak
  | CodeBlock (language : String) (children : List Token)
  | List (children : List Token)
  | ListItem (leader : String) (children : List Token)
  | Table (header : Token) (children : List Token)
  | TableRow (children : List Token)
  | TableCell (children : List Token)
  | Strong (children : List Token)
  | Emphasis (children : List Token)
  | InlineCode (children : List Token)
  | Strikethrough (children : List Token)
  | Link (target : String) (children : List Token)
  | EscapeSequence (children : List Token)
  | LineBreak
  | RawText (content : String)
  | Image (src : String) (title : String) (children : List Token)
  | Unknown (className : String) (children : List Token)
deriving Repr

mutual
/-- A block-descriptor dict.  Each constructor is one notion-py block class
used as the `'type'` entry; its arguments are the other dict entries, in
the insertion order of the source (`language`/`title_plaintext` for code,
`title` for text-bearing blocks, `title`/`children` for list items,
`display_source`/`source`/`caption` for images, `rows`/`schema` for
collection views; a schema entry `{"name": n, "type": t}` is the pair
`(n, t)`). -/
inductive Block where
  | CodeBlock (language : String) (title_plaintext : String)
  | DividerBlock
  | HeaderBlock (title : String)
  | SubheaderBlock (title : String)
  | SubsubheaderBlock (title : String)
  | QuoteBlock (title : String)
  | TextBlock (title : String)
  | NumberedListBlock (title : String) (children : List Block)
  | BulletedListBlock (title : String) (children : List Block)
  | ImageBlock (display_source : String) (source : String) (caption : String)
  | CollectionViewBlock (rows : List Rendered) (schema : List (Rendered × String))

/-- A dynamic Python value produced by a render method: a plain string, a
block-descriptor dict, or a list of such values. -/
inductive Rendered where
  | str (s : String)
  | block (b : Block)
  | list (l : List Rendered)
end
deriving instance Repr for Block
deriving instance Repr for Rendered

mutual
/-- One step of `flatten` from the source: a list (the only iterable among
our values) is flattened recursively, a string or dict is yielded as-is. -/
def flattenOne : Rendered → List Rendered
  | .str s => [.str s]
  | .block b => [.block b]
  | .list l => flatten l

/-- `flatten` from the source, applied to a list of rendered values. -/
def flatten : List Rendered → List Rendered
  | [] => []
  | v :: rest => flattenOne v ++ flatten rest
end


/-- The language allow-list `notionSoLangs` of `render_block_code`,
verbatim and in source order. -/
def notionSoLangs : List String :=
  ["ABAP", "Arduino", "Bash", "BASIC", "C", "Clojure", "CoffeeScript",
   "C++", "C#", "CSS", "Dart", "Diff", "Docker", "Elixir", "Elm",
   "Erlang", "Flow", "Fortran", "F#", "Gherkin", "GLSL", "Go", "GraphQL",
   "Groovy", "Haskell", "HTML", "Java", "JavaScript", "JSON", "Kotlin",
   "LaTeX", "Less", "Lisp", "LiveScript", "Lua", "Makefile", "Markdown",
   "Markup", "MATLAB", "Nix", "Objective-C", "OCaml", "Pascal", "Perl",
   "PHP", "Plain Text", "PowerShell", "Prolog", "Python", "R", "Reason",
   "Ruby", "Rust", "Sass", "Scala", "Scheme", "Scss", "Shell", "SQL",
   "Swift", "TypeScript", "VB.Net", "Verilog", "VHDL", "Visual Basic",
   "WebAssembly", "XML", "YAML"]

/-- `re.match(re.escape(token.language), lang, re.I)`: the escaped pattern
is a literal anchored at the start of `lang`, compared case-insensitively,
i.e. `token.language` is a case-insensitive prefix of `lang` (ASCII case
folding, which is what `re.I` does on these ASCII labels). -/
def langMatch (language lang : String) : Bool :=
  (language.data.map Char.toLower).isPrefixOf (lang.data.map Char.toLower)

/-- Lines 160-165 of the source: resolve the declared language against the
allow-list; `next(..., "")` takes the first match, defaulting to the empty
string, and an empty declared language becomes `"Plain Text"`. -/
def matchLanguage (language : String) : String :=
  if language = "" then "Plain Text"
  else (notionSoLangs.find? (langMatch language)).getD ""

/-- The `logger.info` message of `render_block_code`. -/
def codeLangMsg (language : String) : String :=
  s!"Code block language {language} has no corresponding syntax in Notion.so"

/-- The `logger.info` message of `render_heading`. -/
def headingMsg (level : Nat) : String :=
  s!"h{level} not supported in Notion.so, converting to h3"

/-- The `logger.info` message of `render_table_cell`. -/
def tableCellMsg : String :=
  "Table cell contained non-strings (maybe an image?) and could not add..."

/-- The inner `toString` of `render_multiple_to_string`: a dict whose
`'type'` is `TextBlock` is unwrapped to its `'title'`; anything else is
returned as-is. -/
def toStringR : Rendered → Rendered
  | .block (.TextBlock title) => .str title
  | v => v

/-- The pure tail of `render_multiple_to_string` (lines 60-65), applied to
the already-rendered children: map `toString` over them, join all the
string results, and keep the dict results aside. -/
def render_multiple_to_string (rendered : List Rendered) : String × List Rendered :=
  let r := rendered.map toStringR
  (String.join (r.filterMap fun v => match v with | .str s => some s | _ => none),
   r.filter fun v => match v with | .block _ => true | _ => false)

/-- The pure tail of `render_multiple_to_string_and_combine` (lines
75-81): wrap a non-empty joined string with `toBlockFunc` and put it
first, followed by the leftover dicts. -/
def render_multiple_to_string_and_combine (rendered : List Rendered)
    (toBlockFunc : String → Rendered) : List Rendered :=
  let p := render_multiple_to_string rendered
  (if p.1 ≠ "" then [toBlockFunc p.1] else []) ++ p.2

/-- `isinstance(b, dict)`. -/
def isDict : Rendered → Bool
  | .block _ => true
  | _ => false

/-- A Python list value (the one kind of rendered value `flatten` recurses
into). -/
def isList : Rendered → Bool
  | .list _ => true
  | _ => false

/-- The comprehension condition/projection `s['title'] for s in rendered if
s['type'] == TextBlock` of `render_list_item`. -/
def textBlockTitle : Rendered → Option String
  | .block (.TextBlock t) => some t
  | _ => none

/-- The comprehension `b for b in rendered if b['type'] != TextBlock` of
`render_list_item`, keeping the dict. -/
def nonTextBlock : Rendered → Option Block
  | .block (.TextBlock _) => none
  | .block b => some b
  | _ => none

/-- `re.match(r'\d', token.leader)`: the leader token begins with a
digit. -/
def leaderContainsNumber (leader : String) : Bool :=
  match leader.data with
  | [] => false
  | c :: _ => c.isDigit

/-- `[HeaderBlock, SubheaderBlock, SubsubheaderBlock][level-1]` applied to
the clamped level: 1 and 2 index Header/Subheader, and every other clamped
value yields Subsubheader (the clamp makes 3 the only other value
reachable from mistletoe levels; a hypothetical level 0 would reach
`SubsubheaderBlock` in Python too, through the negative index `-1`). -/
def headingBlock : Nat → String → Block
  | 1, title => .HeaderBlock title
  | 2, title => .SubheaderBlock title
  | _, title => .SubsubheaderBlock title

/-- The keys of each block-descriptor dict built by the renderer, in
insertion order; Python iterates a dict by yielding its keys. -/
def blockKeys : Block → List String
  | .CodeBlock _ _ => ["type", "language", "title_plaintext"]
  | .DividerBlock => ["type"]
  | .HeaderBlock _ => ["type", "title"]
  | .SubheaderBlock _ => ["type", "title"]
  | .SubsubheaderBlock _ => ["type", "title"]
  | .QuoteBlock _ => ["type", "title"]
  | .TextBlock _ => ["type", "title"]
  | .NumberedListBlock _ _ => ["type", "title", "children"]
  | .BulletedListBlock _ _ => ["type", "title", "children"]
  | .ImageBlock _ _ _ => ["type", "display_source", "source", "caption"]
  | .CollectionViewBlock _ _ => ["type", "rows", "schema"]

/-- `for row in header_row` in `render_table` iterates whatever Python
value the header rendered to: a list yields its elements, a string yields
its characters as 1-character strings, a dict yields its keys (a mistletoe
header is always a `TableRow`, so the list case is the one reached on
parser-produced input). -/
def pyIter : Rendered → List Rendered
  | .list l => l
  | .str s => s.data.map fun c => .str (String.mk [c])
  | .block b => (blockKeys b).map .str

mutual
/-- `NotionRenderer.render`: dispatch on the token's class name and
delegate to the per-kind method.  The first component is `none` when
Python would raise (a `KeyError` for an unknown class in `render_map`, or
a `TypeError` noted per case); the second accumulates the messages emitted
to the module logger before the return or the exception, in order. -/
def render : Token → Option Rendered × List String
  | .Document children =>
      match renderEach children with
      | (none, lg) => (none, lg)
      | (some vs, lg) => (some (.list (flatten vs)), lg)
  | .Heading level children =>
      let lg0 : List String := if level > 3 then [headingMsg level] else []
      let lvl := if level > 3 then 3 else level
      match renderEach children with
      | (none, lg) => (none, lg0 ++ lg)
      | (some vs, lg) =>
          (some (.list (render_multiple_to_string_and_combine (flatten vs)
            (fun s => .block (headingBlock lvl s)))), lg0 ++ lg)
  | .Paragraph children =>
      match renderEach children with
      | (none, lg) => (none, lg)
      | (some vs, lg) =>
          (some (.list (render_multiple_to_string_and_combine (flatten vs)
            (fun s => .block (.TextBlock s)))), lg)
  | .Quote children =>
      match renderEach children with
      | (none, lg) => (none, lg)
      | (some vs, lg) =>
          (some (.list (render_multiple_to_string_and_combine (flatten vs)
            (fun s => .block (.QuoteBlock s)))), lg)
  | .ThematicBreak => (some (.block .DividerBlock), [])
  | .CodeBlock language children =>
      let matchLang := matchLanguage language
      let lg0 : List String :=
        if language ≠ "" ∧ matchLang = "" then [codeLangMsg language] else []
      match renderEach children with
      | (none, lg) => (none, lg0 ++ lg)
      | (some vs, lg) =>
          (some (.list (render_multiple_to_string_and_combine (flatten vs)
            (fun s => .block (.CodeBlock matchLang s)))), lg0 ++ lg)
  | .List children =>
      match renderEach children with
      | (none, lg) => (none, lg)
      | (some vs, lg) => (some (.list (flatten vs)), lg)
  | .ListItem leader children =>
      match renderEach children with
      | (none, lg) => (none, lg)
      | (some vs, lg) =>
          let rendered := flatten vs
          -- subscripting `b['type']` on a non-dict element raises TypeError
          if rendered.all isDict then
            (some (.block (
              (if leaderContainsNumber leader then Block.NumberedListBlock
               else Block.BulletedListBlock)
              (String.join (rendered.filterMap textBlockTitle))
              (rendered.filterMap nonTextBlock))), lg)
          else (none, lg)
  | .Table header children =>
      match render header with
      | (none, lg) => (none, lg)
      | (some header_row, lg) =>
          -- `rows = [self.render(r) for r in token.children]`: the plain,
          -- unflattened render results of the body rows (the header is not
          -- among `token.children` in mistletoe)
          match renderEach children with
          | (none, lg2) => (none, lg ++ lg2)
          | (some rows, lg2) =>
              (some (.block (.CollectionViewBlock rows
                ((pyIter header_row).map fun row => (row, "text")))), lg ++ lg2)
  | .TableRow children =>
      match renderEach children with
      | (none, lg) => (none, lg)
      | (some vs, lg) => (some (.list (flatten vs)), lg)
  | .TableCell children =>
      match renderEach children with
      | (none, lg) => (none, lg)
      | (some vs, lg) =>
          let p := render_multiple_to_string (flatten vs)
          (some (.str p.1), lg ++ (if p.2.isEmpty then [] else [tableCellMsg]))
  | .Strong children =>
      match renderEach children with
      | (none, lg) => (none, lg)
      | (some vs, lg) =>
          (some (.list (render_multiple_to_string_and_combine (flatten vs)
            (fun s => .str ("**" ++ s ++ "**")))), lg)
  | .Emphasis children =>
      match renderEach children with
      | (none, lg) => (none, lg)
      | (some vs, lg) =>
          (some (.list (render_multiple_to_string_and_combine (flatten vs)
            (fun s => .str ("*" ++ s ++ "*")))), lg)
  | .InlineCode children =>
      match renderEach children with
      | (none, lg) => (none, lg)
      | (some vs, lg) =>
          (some (.list (render_multiple_to_string_and_combine (flatten vs)
            (fun s => .str ("`" ++ s ++ "`")))), lg)
  | .Strikethrough children =>
      match renderEach children with
      | (none, lg) => (none, lg)
      | (some vs, lg) =>
          (some (.list (render_multiple_to_string_and_combine (flatten vs)
            (fun s => .str ("~" ++ s ++ "~")))), lg)
  | .Link target children =>
      match renderEach children with
      | (none, lg) => (none, lg)
      | (some vs, lg) =>
          let p := render_multiple_to_string (flatten vs)
          (some (.list (.str ("[" ++ p.1 ++ "](" ++ target ++ ")") :: p.2)), lg)
  | .EscapeSequence children =>
      match renderEach children with
      | (none, lg) => (none, lg)
      | (some vs, lg) =>
          (some (.list (render_multiple_to_string_and_combine (flatten vs)
            (fun s => .str ("\\" ++ s)))), lg)
  | .LineBreak => (some (.str " "), [])
  | .RawText content => (some (.str content), [])
  | .Image src title children =>
      -- `token.title or self.render_multiple_to_string(token.children)[0]`:
      -- a non-empty (truthy) title short-circuits and the children are
      -- never rendered
      if title ≠ "" then (some (.block (.ImageBlock src src title)), [])
      else
        match renderEach children with
        | (none, lg) => (none, lg)
        | (some vs, lg) =>
            (some (.block (.ImageBlock src src
              (render_multiple_to_string (flatten vs)).1)), lg)
  | .Unknown _ _ => (none, [])

/-- Rendering of a sequence of sibling tokens, `(self.render(t) for t in
tokens)`, in order: the raw render results (flattening, where the source
does it, is applied by the caller), logs concatenated; a failing element
aborts the sequence, keeping the logs emitted up to and including it. -/
def renderEach : List Token → Option (List Rendered) × List String
  | [] => (some [], [])
  | t :: ts =>
      match render t with
      | (none, lg) => (none, lg)
      | (some v, lg) =>
          match renderEach ts with
          | (none, lg2) => (none, lg ++ lg2)
          | (some vs, lg2) => (some (v :: vs), lg ++ lg2)
end



/-- Spec-side view of one merged child of the string/block merge step: a
string-valued result contributes itself, an (unwrapped) TextBlock
contributes its title, anything else contributes nothing. -/
def contributedString : Rendered → Option String
  | .str s => some s
  | .block (.TextBlock t) => some t
  | _ => none

/-- Spec-side: the concatenation, in encounter order, of all string-valued
children and unwrapped TextBlock titles of a rendered child sequence. -/
def joinedStr (rendered : List Rendered) : String :=
  String.join (rendered.filterMap contributedString)

/-- Spec-side: the non-string block results of a rendered child sequence,
in their original relative order (TextBlocks are absorbed into the joined
string, so they are not among them). -/
def nonStrBlocks (rendered : List Rendered) : List Rendered :=
  rendered.filter fun v => match v with
    | .block (.TextBlock _) => false
    | .block _ => true
    | _ => false

/-- Spec-side: the string begins with a decimal digit. -/
def beginsWithDigit (s : String) : Prop :=
  ∃ c rest, s.data = c :: rest ∧ c.isDigit = true

/-- A table cell holding one literal text run. -/
def cellTok (s : String) : Token := .TableCell [.RawText s]

/-- A table row of literal text cells. -/
def rowTok (ss : List String) : Token := .TableRow (ss.map cellTok)

theorem str_empty_append (s : String) : "" ++ s = s := by
  cases s; rfl

theorem str_append_empty (s : String) : s ++ "" = s := by
  cases s; simp [String.append]

theorem str_append_eq_empty {a b : String} : a ++ b = "" ↔ a = "" ∧ b = "" := by
  cases a; cases b; simp [String.append, String.ext_iff]

theorem join_single (s : String) : String.join [s] = s := by
  cases s; simp [String.join, String.append]

theorem sigil_ne (x s y : String) (hx : x ≠ "") : x ++ s ++ y ≠ "" := fun hc =>
  hx (str_append_eq_empty.mp (str_append_eq_empty.mp hc).1).1

theorem isList_eq_false_of_isDict {v : Rendered} (h : isDict v = true) :
    isList v = false := by
  cases v <;> simp_all [isDict, isList]

theorem flatten_eq_self {l : List Rendered} (h : ∀ v ∈ l, isList v = false) :
    flatten l = l := by
  induction l with
  | nil => rfl
  | cons v rest ih =>
    have hv := h v (List.mem_cons_self ..)
    have hrest := ih fun w hw => h w (List.mem_cons_of_mem _ hw)
    cases v with
    | str s => simp [flatten, flattenOne, hrest]
    | block b => simp [flatten, flattenOne, hrest]
    | list l2 => simp [isList] at hv

theorem flatten_map_str (ss : List String) :
    flatten (ss.map .str) = ss.map .str :=
  flatten_eq_self (by
    intro v hv
    rw [List.mem_map] at hv
    obtain ⟨s, _, rfl⟩ := hv
    rfl)

theorem rmts_fst (rendered : List Rendered) :
    (render_multiple_to_string rendered).1 = joinedStr rendered := by
  simp only [render_multiple_to_string, joinedStr]
  congr 1
  induction rendered with
  | nil => rfl
  | cons v rest ih =>
    cases v with
    | str s => simpa [toStringR, contributedString] using ih
    | block b => cases b <;> simpa [toStringR, contributedString] using ih
    | list l => simpa [toStringR, contributedString] using ih

theorem rmts_snd (rendered : List Rendered) :
    (render_multiple_to_string rendered).2 = nonStrBlocks rendered := by
  simp only [render_multiple_to_string, nonStrBlocks]
  induction rendered with
  | nil => rfl
  | cons v rest ih =>
    cases v with
    | str s => simpa [toStringR] using ih
    | block b => cases b <;> simpa [toStringR] using ih
    | list l => simpa [toStringR] using ih

theorem combine_eq (rendered : List Rendered) (f : String → Rendered) :
    render_multiple_to_string_and_combine rendered f =
      (if joinedStr rendered = "" then [] else [f (joinedStr rendered)])
        ++ nonStrBlocks rendered := by
  simp only [render_multiple_to_string_and_combine, rmts_fst, rmts_snd]
  by_cases h : joinedStr rendered = "" <;> simp [h]

theorem combine_single_str (s : String) (h : s ≠ "") (f : String → Rendered) :
    render_multiple_to_string_and_combine [.str s] f = [f s] := by
  simp [render_multiple_to_string_and_combine, render_multiple_to_string,
    toStringR, join_single, h]

theorem renderEach_none_of_mem {t : Token} {ts : List Token} (hmem : t ∈ ts)
    (h : (render t).1 = none) : (renderEach ts).1 = none := by
  induction ts with
  | nil => cases hmem
  | cons a rest ih =>
    cases hra : render a with
    | mk o lg =>
      cases o with
      | none => simp [renderEach, hra]
      | some v =>
        rcases List.mem_cons.mp hmem with rfl | hmem2
        · rw [hra] at h; simp at h
        · cases hre : renderEach rest with
          | mk o2 lg2 =>
            cases o2 with
            | none => simp [renderEach, hra, hre]
            | some vs =>
              have hn := ih hmem2
              rw [hre] at hn
              simp at hn

theorem render_cell (s : String) :
    render (cellTok s) = (some (.str s), []) := by
  simp [cellTok, render, renderEach, flatten, flattenOne,
    render_multiple_to_string, toStringR, join_single]

theorem renderEach_cells (ss : List String) :
    renderEach (ss.map cellTok) = (some (ss.map .str), []) := by
  induction ss with
  | nil => rfl
  | cons s rest ih => simp [renderEach, render_cell s, ih]

theorem render_row (ss : List String) :
    render (rowTok ss) = (some (.list (ss.map .str)), []) := by
  simp [rowTok, render, renderEach_cells, flatten_map_str]

theorem renderEach_rows (rs : List (List String)) :
    renderEach (rs.map rowTok)
      = (some (rs.map fun r => Rendered.list (r.map .str)), []) := by
  induction rs with
  | nil => rfl
  | cons r rest ih => simp [renderEach, render_row, ih]

theorem render_table_eq {h : Token} {cs : List Token} {hv : Rendered}
    {lg lg2 : List String} {rows : List Rendered}
    (hh : render h = (some hv, lg)) (hc : renderEach cs = (some rows, lg2)) :
    render (.Table h cs) = (some (.block (.CollectionViewBlock rows
      ((pyIter hv).map fun row => (row, "text")))), lg ++ lg2) := by
  simp [render, hh, hc]

theorem table_render (hs : List String) (rs : List (List String)) :
    render (.Table (rowTok hs) (rs.map rowTok)) =
      (some (.block (.CollectionViewBlock
        (rs.map fun r => .list (r.map .str))
        (hs.map fun h => (.str h, "text")))), []) := by
  rw [render_table_eq (render_row hs) (renderEach_rows rs)]
  simp [pyIter, List.map_map, Function.comp]

/-- Claim C1, as amended: for a Table node with header cells `hs` and body
rows `rs`, `render` produces exactly one CollectionViewBlock descriptor
whose schema is one `("text"`-typed) column per header cell, in header
order, and whose rows are exactly the body rows as string arrays; the
header row appears only in the schema, not in the rows list. -/
theorem C1_table_schema_rows (hs : List String) (rs : List (List String)) :
    render (.Table (rowTok hs) (rs.map rowTok)) =
      (some (.block (.CollectionViewBlock
        (rs.map fun r => .list (r.map .str))
        (hs.map fun h => (.str h, "text")))), []) :=
  table_render hs rs

/-- Claim C1 counterexample: a table with header `["Name", "Age"]` and one
body row `["Ada", "36"]` renders with `rows` holding only the body row;
the header row is not an element of `rows` (so in particular it is not its
first element), contradicting the claim that the rows list includes the
header as the first row. -/
theorem C1_counterexample :
    render (.Table (rowTok ["Name", "Age"]) [rowTok ["Ada", "36"]])
      = (some (.block (.CollectionViewBlock
          [.list [.str "Ada", .str "36"]]
          [(.str "Name", "text"), (.str "Age", "text")])), []) ∧
    Rendered.list [.str "Name", .str "Age"] ∉
      [Rendered.list [.str "Ada", .str "36"]] := by
  refine ⟨rfl, ?_⟩
  simp

/-- Claim C2: the string/block merge step concatenates all string-valued
rendered children and unwrapped TextBlock titles in encounter order; a
non-empty joined string is wrapped by the caller-supplied constructor and
placed first, followed by the non-string blocks in their original relative
order, and an empty joined string produces no string block at all; in
particular a paragraph with an inline image before trailing text yields
the Text block before the Image block. -/
theorem C2_merge_string_first :
    (∀ (rendered : List Rendered) (f : String → Rendered),
      render_multiple_to_string_and_combine rendered f =
        (if joinedStr rendered = "" then [] else [f (joinedStr rendered)])
          ++ nonStrBlocks rendered) ∧
    render (.Paragraph [.Image "u" "alt" [], .RawText "text"])
      = (some (.list [.block (.TextBlock "text"),
          .block (.ImageBlock "u" "u" "alt")]), []) :=
  ⟨combine_eq, rfl⟩

/-- Claim C3: a token whose class has no entry in the dispatch table is a
fatal error (`render` fails with no result), a failing sibling aborts the
whole sibling-sequence rendering, and a document containing an
unregistered node renders to an error, never to a partial result. -/
theorem C3_unknown_kind_fatal :
    (∀ name cs, render (.Unknown name cs) = (none, [])) ∧
    (∀ t ts, t ∈ ts → (render t).1 = none → (renderEach ts).1 = none) ∧
    (∀ cs name cs2, Token.Unknown name cs2 ∈ cs →
      (render (.Document cs)).1 = none) := by
  refine ⟨fun _ _ => rfl, fun _ _ hmem h => renderEach_none_of_mem hmem h, ?_⟩
  intro cs name cs2 hmem
  have h := renderEach_none_of_mem hmem
    (show (render (.Unknown name cs2)).1 = none from rfl)
  cases hre : renderEach cs with
  | mk o lg =>
    cases o with
    | none => simp [render, hre]
    | some vs => rw [hre] at h; simp at h

theorem C3_witness :
    (render (.Document [.RawText "a", .Unknown "HtmlSpan" []])).1 = none :=
  C3_unknown_kind_fatal.2.2 _ "HtmlSpan" []
    (List.Mem.tail _ (List.Mem.head _))

/-- Claim C4: a ListItem renders to exactly one block descriptor, numbered
iff its leader token begins with a digit (bulleted otherwise), whose title
is the concatenation in encounter order of the titles of the TextBlock
results among its rendered children, and whose children are exactly the
non-TextBlock results in their original order (stated for items whose
rendered children are all dicts, as the source subscripts every result by
`'type'`). -/
theorem C4_list_item :
    (∀ leader cs vs lg, renderEach cs = (some vs, lg) →
      (flatten vs).all isDict = true →
      render (.ListItem leader cs) =
        (some (.block ((if leaderContainsNumber leader
            then Block.NumberedListBlock else Block.BulletedListBlock)
          (String.join ((flatten vs).filterMap textBlockTitle))
          ((flatten vs).filterMap nonTextBlock))), lg)) ∧
    (∀ leader, leaderContainsNumber leader = true ↔ beginsWithDigit leader) := by
  constructor
  · intro leader cs vs lg hre hall
    simp [render, hre, hall]
  · intro leader
    simp only [leaderContainsNumber, beginsWithDigit]
    cases hd : leader.data with
    | nil => simp
    | cons c rest =>
      simp only
      constructor
      · intro h; exact ⟨c, rest, rfl, h⟩
      · rintro ⟨c2, r2, heq, h2⟩
        injection heq with h1 _
        subst h1
        exact h2

theorem C4_witness :
    renderEach [Token.Paragraph [Token.RawText "x"]]
      = (some [.list [.block (.TextBlock "x")]], []) ∧
    render (.ListItem "1." [.Paragraph [.RawText "x"]])
      = (some (.block (.NumberedListBlock "x" [])), []) :=
  ⟨rfl, C4_list_item.1 "1." [Token.Paragraph [Token.RawText "x"]]
    [.list [.block (.TextBlock "x")]] [] rfl rfl⟩

theorem find?_first {α : Type} (p : α → Bool) (pre : List α) (x : α)
    (post : List α) (hx : p x = true) (hpre : ∀ a ∈ pre, p a = false) :
    (pre ++ x :: post).find? p = some x := by
  induction pre with
  | nil => rw [List.nil_append, List.find?_cons_of_pos _ hx]
  | cons a rest ih =>
    have ha := hpre a (List.mem_cons_self ..)
    rw [List.cons_append, List.find?_cons_of_neg _ (by simp [ha])]
    exact ih fun b hb => hpre b (List.mem_cons_of_mem _ hb)

/-- Claim C5: an empty declared language resolves to "Plain Text"; a
declared language that is a case-insensitive prefix of some allow-list
label resolves to the first such label (so "py" resolves to "Python");
otherwise the code block falls back to the unlabeled language `""` and
the diagnostic is logged. -/
theorem C5_language_resolution :
    matchLanguage "" = "Plain Text" ∧
    (∀ language lab, langMatch language lab = true ↔
      ∃ t, language.data.map Char.toLower ++ t = lab.data.map Char.toLower) ∧
    (∀ language pre lab post, language ≠ "" →
      notionSoLangs = pre ++ lab :: post → langMatch language lab = true →
      (∀ l ∈ pre, langMatch language l = false) →
      matchLanguage language = lab) ∧
    matchLanguage "py" = "Python" ∧
    (∀ language, language ≠ "" →
      (∀ l ∈ notionSoLangs, langMatch language l = false) →
      matchLanguage language = "" ∧
      ∀ cs, (render (.CodeBlock language cs)).2
        = codeLangMsg language :: (renderEach cs).2) := by
  refine ⟨rfl, ?_, ?_, by decide, ?_⟩
  · intro language lab
    rw [langMatch, List.isPrefixOf_iff_prefix]
    exact Iff.rfl
  · intro language pre lab post hne hsplit hlab hpre
    rw [matchLanguage, if_neg hne, hsplit, find?_first _ _ _ _ hlab hpre]
    rfl
  · intro language hne hall
    have hfind : notionSoLangs.find? (langMatch language) = none :=
      List.find?_eq_none.mpr fun x hx => by simp [hall x hx]
    have hm : matchLanguage language = "" := by
      rw [matchLanguage, if_neg hne, hfind]; rfl
    refine ⟨hm, fun cs => ?_⟩
    cases hre : renderEach cs with
    | mk o lg =>
      cases o with
      | none => simp [render, hre, hm, hne]
      | some vs => simp [render, hre, hm, hne]

theorem C5_witness :
    matchLanguage "xyz123" = "" ∧
    (render (.CodeBlock "xyz123" [.RawText "print"])).2
      = codeLangMsg "xyz123" :: (renderEach [.RawText "print"]).2 :=
  ⟨(C5_language_resolution.2.2.2.2 "xyz123" (by decide) (by decide)).1,
   (C5_language_resolution.2.2.2.2 "xyz123" (by decide) (by decide)).2 _⟩

/-- Claim C6: a Heading of level 4 to 6 renders exactly as the same
heading at level 3 does (a Subsubheader kind), except that the clamping
diagnostic is additionally emitted, and no error is raised; levels 1, 2
and 3 give the Header, Subheader and Subsubheader kinds respectively. -/
theorem C6_heading_clamp :
    (∀ level cs, 4 ≤ level → level ≤ 6 →
      render (.Heading level cs)
        = ((render (.Heading 3 cs)).1,
           headingMsg level :: (render (.Heading 3 cs)).2)) ∧
    (∀ s, s ≠ "" →
      render (.Heading 1 [.RawText s])
        = (some (.list [.block (.HeaderBlock s)]), []) ∧
      render (.Heading 2 [.RawText s])
        = (some (.list [.block (.SubheaderBlock s)]), []) ∧
      render (.Heading 3 [.RawText s])
        = (some (.list [.block (.SubsubheaderBlock s)]), [])) := by
  constructor
  · intro level cs h4 _
    have hgt : 3 < level := by omega
    cases hre : renderEach cs with
    | mk o lg =>
      cases o with
      | none => simp [render, hre, hgt]
      | some vs => simp [render, hre, hgt]
  · intro s hs
    refine ⟨?_, ?_, ?_⟩ <;>
      simp [render, renderEach, flatten, flattenOne,
        combine_single_str s hs, headingBlock]

theorem C6_witness :
    render (.Heading 5 [.RawText "t"])
      = ((render (.Heading 3 [.RawText "t"])).1,
         headingMsg 5 :: (render (.Heading 3 [.RawText "t"])).2) ∧
    render (.Heading 3 [.RawText "t"])
      = (some (.list [.block (.SubsubheaderBlock "t")]), []) :=
  ⟨C6_heading_clamp.1 5 _ (by decide) (by decide),
   (C6_heading_clamp.2 "t" (by decide)).2.2⟩

/-- Claim C7: a List node produces no block descriptor of its own; its
rendered result is exactly the rendered results of its items as direct
siblings (stated for items rendering to single dicts, as ListItems do),
and a 3-item list renders to exactly 3 sibling block descriptors. -/
theorem C7_list_transparent :
    (∀ cs vs lg, renderEach cs = (some vs, lg) →
      (∀ v ∈ vs, isDict v = true) →
      render (.List cs) = (some (.list vs), lg)) ∧
    render (.List [.ListItem "-" [.Paragraph [.RawText "a"]],
                   .ListItem "-" [.Paragraph [.RawText "b"]],
                   .ListItem "-" [.Paragraph [.RawText "c"]]])
      = (some (.list [.block (.BulletedListBlock "a" []),
          .block (.BulletedListBlock "b" []),
          .block (.BulletedListBlock "c" [])]), []) := by
  constructor
  · intro cs vs lg hre hall
    have hfl : flatten vs = vs :=
      flatten_eq_self fun v hv => isList_eq_false_of_isDict (hall v hv)
    simp [render, hre, hfl]
  · rfl

theorem C7_witness :
    render (.List [.ThematicBreak])
      = (some (.list [.block .DividerBlock]), []) :=
  C7_list_transparent.1 _ _ _ rfl (by
    intro v hv
    rw [List.mem_singleton] at hv
    subst hv
    rfl)

theorem para_three (a b w : String) (t : Token)
    (ht : render t = (some (.list [.str w]), []))
    (hw : w ≠ "") :
    render (.Paragraph [.RawText a, t, .RawText b])
      = (some (.list [.block (.TextBlock (a ++ w ++ b))]), []) := by
  have hne : a ++ w ++ b ≠ "" := fun hc =>
    hw (str_append_eq_empty.mp (str_append_eq_empty.mp hc).1).2
  simp [render, renderEach, ht, flatten, flattenOne,
    render_multiple_to_string_and_combine, render_multiple_to_string,
    toStringR, String.join, str_empty_append, hne]

theorem render_wrap (s : String) (h : s ≠ "") :
    render (.Strong [.RawText s])
      = (some (.list [.str ("**" ++ s ++ "**")]), []) ∧
    render (.Emphasis [.RawText s])
      = (some (.list [.str ("*" ++ s ++ "*")]), []) ∧
    render (.InlineCode [.RawText s])
      = (some (.list [.str ("`" ++ s ++ "`")]), []) ∧
    render (.Strikethrough [.RawText s])
      = (some (.list [.str ("~" ++ s ++ "~")]), []) := by
  refine ⟨?_, ?_, ?_, ?_⟩ <;>
    simp [render, renderEach, flatten, flattenOne, combine_single_str s h]

/-- Claim C8: a paragraph containing a Strong, Emphasis, InlineCode or
Strikethrough span around non-empty inner text `s` renders to a Text
block whose title contains the sigil-wrapped form with `s` unchanged
between the surrounding runs. -/
theorem C8_inline_sigils : ∀ a s b : String, s ≠ "" →
    render (.Paragraph [.RawText a, .Strong [.RawText s], .RawText b])
      = (some (.list [.block (.TextBlock (a ++ ("**" ++ s ++ "**") ++ b))]), []) ∧
    render (.Paragraph [.RawText a, .Emphasis [.RawText s], .RawText b])
      = (some (.list [.block (.TextBlock (a ++ ("*" ++ s ++ "*") ++ b))]), []) ∧
    render (.Paragraph [.RawText a, .InlineCode [.RawText s], .RawText b])
      = (some (.list [.block (.TextBlock (a ++ ("`" ++ s ++ "`") ++ b))]), []) ∧
    render (.Paragraph [.RawText a, .Strikethrough [.RawText s], .RawText b])
      = (some (.list [.block (.TextBlock (a ++ ("~" ++ s ++ "~") ++ b))]), []) := by
  intro a s b hs
  exact ⟨para_three a b _ _ (render_wrap s hs).1 (sigil_ne "**" s "**" (by decide)),
    para_three a b _ _ (render_wrap s hs).2.1 (sigil_ne "*" s "*" (by decide)),
    para_three a b _ _ (render_wrap s hs).2.2.1 (sigil_ne "`" s "`" (by decide)),
    para_three a b _ _ (render_wrap s hs).2.2.2 (sigil_ne "~" s "~" (by decide))⟩

theorem C8_witness :
    render (.Paragraph [.RawText "x", .Strong [.RawText "bold"], .RawText "y"])
      = (some (.list [.block (.TextBlock "x**bold**y")]), []) ∧
    render (.Paragraph [.RawText "x", .Emphasis [.RawText "bold"], .RawText "y"])
      = (some (.list [.block (.TextBlock "x*bold*y")]), []) ∧
    render (.Paragraph [.RawText "x", .InlineCode [.RawText "bold"], .RawText "y"])
      = (some (.list [.block (.TextBlock "x`bold`y")]), []) ∧
    render (.Paragraph [.RawText "x", .Strikethrough [.RawText "bold"], .RawText "y"])
      = (some (.list [.block (.TextBlock "x~bold~y")]), []) :=
  C8_inline_sigils "x" "bold" "y" (by decide)

/-- Claim C9: a TableCell renders to just the concatenated string of its
string-convertible children; non-string block results among them are
dropped from the output, with the diagnostic logged exactly when some
were present, and the render does not abort because of them. -/
theorem C9_table_cell : ∀ cs vs lg, renderEach cs = (some vs, lg) →
    (render (.TableCell cs)).1 = some (.str (joinedStr (flatten vs))) ∧
    (nonStrBlocks (flatten vs) = [] → (render (.TableCell cs)).2 = lg) ∧
    (nonStrBlocks (flatten vs) ≠ [] →
      (render (.TableCell cs)).2 = lg ++ [tableCellMsg]) := by
  intro cs vs lg hre
  refine ⟨?_, ?_, ?_⟩
  · simp [render, hre, rmts_fst]
  · intro h; simp [render, hre, rmts_snd, h, List.isEmpty_iff]
  · intro h; simp [render, hre, rmts_snd, h, List.isEmpty_iff]

theorem C9_witness :
    (render (.TableCell [.RawText "x", .Image "u" "cap" []])).1
      = some (.str "x") ∧
    (render (.TableCell [.RawText "x", .Image "u" "cap" []])).2
      = [tableCellMsg] := by
  have h := C9_table_cell [.RawText "x", .Image "u" "cap" []]
    [.str "x", .block (.ImageBlock "u" "u" "cap")] [] rfl
  exact ⟨h.1, h.2.2 (by simp [nonStrBlocks, flatten, flattenOne])⟩

/-- Claim C10: a Link always emits the bracketed string first, even when
the rendered child string is empty (giving `[](target)`), followed by the
leftover non-string child blocks, whereas every other inline handler
(strong, emphasis, inline code, strikethrough, escape) produces no
wrapped string at all when the inner string is empty. -/
theorem C10_link_empty_title :
    (∀ target cs vs lg, renderEach cs = (some vs, lg) →
      joinedStr (flatten vs) = "" →
      render (.Link target cs)
        = (some (.list (.str ("[](" ++ target ++ ")")
            :: nonStrBlocks (flatten vs))), lg) ∧
      render (.Strong cs) = (some (.list (nonStrBlocks (flatten vs))), lg) ∧
      render (.Emphasis cs) = (some (.list (nonStrBlocks (flatten vs))), lg) ∧
      render (.InlineCode cs) = (some (.list (nonStrBlocks (flatten vs))), lg) ∧
      render (.Strikethrough cs)
        = (some (.list (nonStrBlocks (flatten vs))), lg) ∧
      render (.EscapeSequence cs)
        = (some (.list (nonStrBlocks (flatten vs))), lg)) ∧
    render (.Link "u" []) = (some (.list [.str "[](u)"]), []) := by
  constructor
  · intro target cs vs lg hre hj
    have hlit : ("[" : String) ++ "](" = "[](" := rfl
    refine ⟨?_, ?_, ?_, ?_, ?_, ?_⟩
    · simp [render, hre, rmts_fst, rmts_snd, hj, str_append_empty, hlit]
    all_goals simp [render, hre, combine_eq, hj]
  · rfl

theorem C10_witness :
    render (.Link "u" [.Image "i" "c" []])
      = (some (.list [.str "[](u)", .block (.ImageBlock "i" "i" "c")]), []) ∧
    render (.Strong [.Image "i" "c" []])
      = (some (.list [.block (.ImageBlock "i" "i" "c")]), []) :=
  ⟨(C10_link_empty_title.1 "u" [.Image "i" "c" []]
      [.block (.ImageBlock "i" "i" "c")] [] rfl rfl).1,
   (C10_link_empty_title.1 "u" [.Image "i" "c" []]
      [.block (.ImageBlock "i" "i" "c")] [] rfl rfl).2.1⟩
